import Mathlib

/-!
Verification of the lending-flow document processing dispatcher.

The repository deploys a document-processing pipeline: an S3 bucket with
fixed folder structure, an event rule routing object-creation events with
key leading segment `documents/` to a Lambda function, and the Lambda's
environment built from optional context values.  The stack file
`deployment/stacks/lending_flow_stack.py` is embedded directly; the
runtime dispatcher components (location deriver, profile resolver,
idempotency guard, job dispatcher) live in the Lambda handler asset that
is not part of the stack file, and are modelled from the specification
where so marked.

Keys and URIs are modelled as `List Char`; other identifiers as `String`.
-/

namespace LendingFlow

/-! ## Embedded from `deployment/stacks/lending_flow_stack.py` -/

/-- The deployed folder placeholders, from the stack's
`prefixes = ['samples/', 'samples-output/', 'documents/', 'documents-output/']`. -/
def deployedFolders : List (List Char) :=
  [("samples/").toList, ("samples-output/").toList,
   ("documents/").toList, ("documents-output/").toList]

/-- Context configuration read once in `LendingFlowStack.__init__` via
`self.node.try_get_context`: both values are optional. -/
structure ContextConfig where
  dataProjectName : Option String
  bdaRuntimeEndpoint : Option String

/-- The Lambda environment dict built in
`create_invoke_data_automation_function`: a dict comprehension over the
three candidate entries that keeps a key only when its value is not None. -/
def mkEnvironment (targetBucketName : String)
    (bdaRuntimeEndpoint dataProjectName : Option String) :
    List (String × String) :=
  ([(("TARGET_BUCKET_NAME"), some targetBucketName),
    (("BDA_RUNTIME_ENDPOINT"), bdaRuntimeEndpoint),
    (("DATA_PROJECT_NAME"), dataProjectName)] :
      List (String × Option String)).filterMap
    (fun kv => kv.2.map (fun v => (kv.1, v)))

/-- The stack composes the context with the function: `__init__` forwards
each context value as a keyword argument only when it is not None, and the
function's parameters default to None, so the function receives exactly
the context options. -/
def stackEnvironment (bucketName : String) (ctx : ContextConfig) :
    List (String × String) :=
  mkEnvironment bucketName ctx.bdaRuntimeEndpoint ctx.dataProjectName

/-- An EventBridge rule as configured by `create_event_rule`: it matches
on event source, detail type, bucket name, and a key leading-segment
pattern. -/
structure EventRule where
  source : String
  detailType : String
  bucketName : String
  keyPat : List Char
  deriving DecidableEq

/-- `create_event_rule(id, prefix, target)` builds a rule with source
`aws.s3`, detail type `Object Created`, the stack's bucket, and the given
key pattern. -/
def createEventRule (bucketName : String) (pat : List Char) : EventRule :=
  { source := ("aws.s3"), detailType := ("Object Created"),
    bucketName := bucketName, keyPat := pat }

/-- The stack creates exactly one rule:
`create_event_rule("DocumentsRule", "documents/", ...)`. -/
def stackRules (bucketName : String) : List EventRule :=
  [createEventRule bucketName (("documents/").toList)]

/-- EventBridge pattern matching for the rules above: every listed field
must match, and the key must start with the rule's key pattern. -/
def matchesRule (r : EventRule) (source detailType bucketName : String)
    (key : List Char) : Bool :=
  r.source == source && r.detailType == detailType &&
    r.bucketName == bucketName && r.keyPat.isPrefixOf key

/-! ## Location Deriver

Modelled from the spec: the Lambda handler asset
(`lambda/lending_flow/documents_processor`) is not part of the stack
file under `src/`.  The spec defines `derive(sourceBucket, objectKey)`:
split the key at its first path segment, require the segment to be a
configured input folder (else `UnroutableKeyError`), replace it by its
configured output counterpart (else `UnmappedPrefixError`), and return
fully qualified URIs.  The concrete mapping `documents ->
documents-output` is corroborated by the stack docstring ("replaces
"documents" with "documents-output""). -/

/-- A derived processing location: fully qualified input and output URIs. -/
structure ProcessingLocation where
  inputUri : List Char
  outputUri : List Char
  deriving DecidableEq

/-- Errors of the location deriver, from the spec's error taxonomy. -/
inductive DeriveError where
  | unroutableKeyError
  | unmappedPrefixError
  deriving DecidableEq

/-- Modelled from the spec: deriver configuration surface — the list of
configured input folder segments and the segment-to-output-counterpart
mapping. -/
structure RouteConfig where
  inputDirs : List (List Char)
  dirMap : List (List Char × List Char)

/-- Modelled from the spec: a fully qualified S3 URI for a bucket and key. -/
def s3Uri (bucket key : List Char) : List Char :=
  ("s3://").toList ++ bucket ++ '/' :: key

/-- Modelled from the spec: `derive(sourceBucket, objectKey)`.  Splits
the key at the first `/`, validates the leading segment against the
configured input folders unconditionally (the router's filtering is
advisory), maps the segment to its output counterpart, and returns the
pair of URIs with the remainder of the key preserved. -/
def derive (cfg : RouteConfig) (sourceBucket objectKey : List Char) :
    Except DeriveError ProcessingLocation :=
  let seg := objectKey.takeWhile (· != '/')
  let rest := objectKey.dropWhile (· != '/')
  if cfg.inputDirs.contains seg then
    match cfg.dirMap.lookup seg with
    | some outSeg =>
        .ok { inputUri := s3Uri sourceBucket objectKey,
              outputUri := s3Uri sourceBucket (outSeg ++ rest) }
    | none => .error .unmappedPrefixError
  else
    .error .unroutableKeyError

/-- The deployed routing configuration: one input folder `documents`
mapped to `documents-output`, per the stack docstring and the deployed
folder set. -/
def lendingConfig : RouteConfig :=
  { inputDirs := [("documents").toList],
    dirMap := [(("documents").toList, ("documents-output").toList)] }

/-! ## Dispatch Idempotency Guard

Modelled from the spec: the guard code lives in the Lambda handler asset,
not in the stack file under `src/`.  The guard owns a `DispatchRecord`
per eventId; `admit` is atomic compare-and-set: a fresh eventId is
admitted and recorded `Pending`; a `Pending` or `Submitted` record means
`AlreadyHandled`; a `Failed` record is not treated as already handled and
the caller is re-admitted. -/

/-- Dispatch record status, from the spec's data model. -/
inductive Status where
  | pending
  | submitted
  | failed
  deriving DecidableEq

/-- A dispatch record: status plus the job handle returned on successful
submission. -/
structure DispatchRecord where
  status : Status
  jobHandle : Option String
  deriving DecidableEq

/-- The shared record store, keyed by eventId. -/
def Store : Type := String → Option DispatchRecord

/-- The empty store: no eventId has been sighted. -/
def Store.empty : Store := fun _ => none

/-- Pointwise store update. -/
def Store.set (st : Store) (e : String) (r : DispatchRecord) : Store :=
  fun x => if x = e then some r else st x

/-- Outcome of `admit`. -/
inductive AdmitOutcome where
  | admitted
  | alreadyHandled
  deriving DecidableEq

/-- Modelled from the spec: `admit(eventId)`.  First sighting creates a
`Pending` record and admits; `Pending` and `Submitted` records answer
`AlreadyHandled`; a `Failed` record is re-admitted (reset to `Pending`)
so redelivery may retry. -/
def admitOne (st : Store) (e : String) : AdmitOutcome × Store :=
  match st e with
  | none => (.admitted, st.set e { status := .pending, jobHandle := none })
  | some r =>
    match r.status with
    | .pending => (.alreadyHandled, st)
    | .submitted => (.alreadyHandled, st)
    | .failed => (.admitted, st.set e { status := .pending, jobHandle := none })

/-- A serialization of `n` atomic `admit` calls on the same eventId:
because `admit` is atomic, any concurrent execution of identical calls is
equivalent to running them in sequence; this returns the outcomes in
serialization order. -/
def admitRun (n : Nat) (st : Store) (e : String) : List AdmitOutcome :=
  match n with
  | 0 => []
  | n + 1 =>
    let (o, st') := admitOne st e
    o :: admitRun n st' e

/-! ## Profile Resolver

Modelled from the spec: the resolver code lives in the Lambda handler
asset, not in the stack file under `src/`.  Configuration holds an
optional default profile name; startup fails with
`MissingProfileConfigError` when no default is configured, otherwise the
default reference is resolved once against the service catalog.
Per-request resolution with an absent profileName returns the
startup-resolved default without any lookup. -/

/-- A resolved profile reference. -/
structure ProfileReference where
  name : String
  resolvedHandle : String
  deriving DecidableEq

/-- Resolver configuration: the optional default profile name. -/
structure ResolverConfig where
  defaultProfileName : Option String

/-- The service catalog, mapping profile names to durable handles. -/
def Catalog : Type := String → Option String

/-- Fatal startup errors of the resolver. -/
inductive StartupError where
  | missingProfileConfigError
  | profileNotFoundError
  deriving DecidableEq

/-- Resolver state after a successful startup: the default reference,
resolved once at process start. -/
structure ResolverState where
  defaultRef : ProfileReference
  deriving DecidableEq

/-- Per-request resolution errors. -/
inductive ProfileError where
  | profileNotFoundError
  | profileResolutionTimeoutError
  deriving DecidableEq

/-- Modelled from the spec: startup resolution.  No configured default is
a fatal `MissingProfileConfigError`; otherwise the default name is looked
up once in the catalog. -/
def startupResolver (cat : Catalog) (cfg : ResolverConfig) :
    Except StartupError ResolverState :=
  match cfg.defaultProfileName with
  | none => .error .missingProfileConfigError
  | some n =>
    match cat n with
    | some h => .ok { defaultRef := { name := n, resolvedHandle := h } }
    | none => .error .profileNotFoundError

/-- Modelled from the spec: `resolve(profileName)`.  An absent
profileName returns the startup-resolved default (no lookup, hence no
per-request failure); a present name is looked up in the catalog. -/
def resolve (state : ResolverState) (cat : Catalog)
    (profileName : Option String) : Except ProfileError ProfileReference :=
  match profileName with
  | none => .ok state.defaultRef
  | some n =>
    match cat n with
    | some h => .ok { name := n, resolvedHandle := h }
    | none => .error .profileNotFoundError

/-! ## Job Dispatcher

Modelled from the spec: the dispatcher code lives in the Lambda handler
asset, not in the stack file under `src/`.  `dispatch` first consults the
guard; `AlreadyHandled` yields `Skipped` with no further effect.  An
admitted event is derived and resolved; failures mark the record `Failed`.
The downstream submission is attempted against an oracle of replies with
a bounded retry budget for transient rejections; acceptance marks the
record `Submitted` with the job handle. -/

/-- An intake event, as normalized by the ingress boundary. -/
structure IntakeEvent where
  sourceBucket : List Char
  objectKey : List Char
  eventId : String

/-- Reply of one downstream submission attempt. -/
inductive SubmitReply where
  | accepted (handle : String)
  | rejectedTransient
  | rejectedPermanent
  deriving DecidableEq

/-- Classified dispatch errors. -/
inductive DispatchError where
  | deriveErr (e : DeriveError)
  | profileErr (e : ProfileError)
  | downstreamPermanent
  | downstreamThrottled
  deriving DecidableEq

/-- Outcome of `dispatch`. -/
inductive DispatchOutcome where
  | submittedOutcome (handle : String)
  | skipped
  | failedOutcome (e : DispatchError)
  deriving DecidableEq

/-- Modelled from the spec: the bounded submission loop.  Each attempt
consumes one oracle reply and counts one downstream submission;
acceptance marks `Submitted`, a permanent rejection marks `Failed`, a
transient rejection is retried while budget remains and surfaces as
throttled (record `Failed`) once exhausted.  Returns the outcome, the
updated store and the number of submissions issued. -/
def submitLoop (budget : Nat) (replies : List SubmitReply) (st : Store)
    (e : String) : DispatchOutcome × Store × Nat :=
  match budget, replies with
  | _, [] =>
      (.failedOutcome .downstreamThrottled,
       st.set e { status := .failed, jobHandle := none }, 0)
  | b, reply :: rs =>
    match reply with
    | .accepted h =>
        (.submittedOutcome h,
         st.set e { status := .submitted, jobHandle := some h }, 1)
    | .rejectedPermanent =>
        (.failedOutcome .downstreamPermanent,
         st.set e { status := .failed, jobHandle := none }, 1)
    | .rejectedTransient =>
      match b with
      | 0 =>
          (.failedOutcome .downstreamThrottled,
           st.set e { status := .failed, jobHandle := none }, 1)
      | b' + 1 =>
        let (o, st', k) := submitLoop b' rs st e
        (o, st', k + 1)

/-- Modelled from the spec: `dispatch(event)`.  Step 1 admits through the
guard (`AlreadyHandled` gives `Skipped`, no submission); step 2 derives
the locations; step 3 resolves the profile (the resolution result is an
oracle parameter, the lookup being an external call); steps 4-6 run the
submission loop with a retry budget of 3.  Returns the outcome, the
updated store and the number of downstream submissions issued. -/
def dispatch (cfg : RouteConfig) (st : Store) (ev : IntakeEvent)
    (profileRes : Except ProfileError ProfileReference)
    (replies : List SubmitReply) : DispatchOutcome × Store × Nat :=
  match admitOne st ev.eventId with
  | (.alreadyHandled, st') => (.skipped, st', 0)
  | (.admitted, st') =>
    match derive cfg ev.sourceBucket ev.objectKey with
    | .error de =>
        (.failedOutcome (.deriveErr de),
         st'.set ev.eventId { status := .failed, jobHandle := none }, 0)
    | .ok _ =>
      match profileRes with
      | .error pe =>
          (.failedOutcome (.profileErr pe),
           st'.set ev.eventId { status := .failed, jobHandle := none }, 0)
      | .ok _ => submitLoop 3 replies st' ev.eventId

/-- A sequence of dispatches: each element supplies the intake event and
the oracle inputs of one delivery; outcomes are collected in order and
submissions are summed. -/
def dispatchSeq (cfg : RouteConfig) (st : Store)
    (deliveries : List (IntakeEvent × Except ProfileError ProfileReference ×
      List SubmitReply)) : List DispatchOutcome × Store × Nat :=
  match deliveries with
  | [] => ([], st, 0)
  | (ev, pr, rs) :: ds =>
    let (o, st', k) := dispatch cfg st ev pr rs
    let (os, st'', ks) := dispatchSeq cfg st' ds
    (o :: os, st'', k + ks)

/-- A concrete catalog used to instantiate resolver statements: it knows
one profile named `proj` with handle `arn`. -/
def sampleCatalog : Catalog :=
  fun x => if x = ("proj") then some ("arn") else none

/-! ## Helper lemmas -/

/-- Taking the slash-free part of `seg ++ '/' :: rest` recovers `seg`
when `seg` itself contains no slash. -/
theorem takeWhile_seg : ∀ (seg rest : List Char),
    seg.all (· != '/') = true →
    (seg ++ '/' :: rest).takeWhile (· != '/') = seg
  | [], rest, _ => by simp [List.takeWhile]
  | c :: cs, rest, h => by
    simp only [List.all_cons, Bool.and_eq_true] at h
    simp [List.takeWhile_cons, h.1, takeWhile_seg cs rest h.2]

/-- Dropping the slash-free part of `seg ++ '/' :: rest` leaves
`'/' :: rest` when `seg` itself contains no slash. -/
theorem dropWhile_seg : ∀ (seg rest : List Char),
    seg.all (· != '/') = true →
    (seg ++ '/' :: rest).dropWhile (· != '/') = '/' :: rest
  | [], rest, _ => by simp [List.dropWhile]
  | c :: cs, rest, h => by
    simp only [List.all_cons, Bool.and_eq_true] at h
    simp [List.dropWhile_cons, h.1, dropWhile_seg cs rest h.2]

/-- If two lists disagree early enough that neither starts with the
other, then the first is not a leading part of any extension of the
second. -/
theorem isPrefixOf_append_false : ∀ (p q rest : List Char),
    p.isPrefixOf q = false → q.isPrefixOf p = false →
    p.isPrefixOf (q ++ rest) = false
  | [], q, rest, h1, _ => by simp [List.isPrefixOf] at h1
  | a :: as, [], rest, _, h2 => by simp [List.isPrefixOf] at h2
  | a :: as, b :: bs, rest, h1, h2 => by
    simp only [List.cons_append, List.isPrefixOf, Bool.and_eq_false_iff] at *
    rcases h1 with hab | h1
    · exact Or.inl hab
    · rcases h2 with hba | h2
      · refine Or.inl ?_
        cases hab : a == b
        · rfl
        · rw [eq_of_beq hab] at hba
          simp at hba
      · exact Or.inr (isPrefixOf_append_false as bs rest h1 h2)

/-- A store updated at an eventId reads back the record there. -/
theorem Store.set_self (st : Store) (e : String) (r : DispatchRecord) :
    (st.set e r) e = some r := by
  simp [Store.set]

/-- A run of admits against a `Pending` or `Submitted` record answers
`AlreadyHandled` throughout and never changes the store. -/
theorem admitRun_stuck : ∀ (n : Nat) (st : Store) (e : String)
    (r : DispatchRecord), st e = some r →
    (r.status = .pending ∨ r.status = .submitted) →
    admitRun n st e = List.replicate n .alreadyHandled
  | 0, _, _, _, _, _ => rfl
  | n + 1, st, e, r, h, hs => by
    have hadm : admitOne st e = (.alreadyHandled, st) := by
      rcases hs with hs | hs <;> simp [admitOne, h, hs]
    simp [admitRun, hadm, List.replicate_succ,
      admitRun_stuck n st e r h hs]

/-- No run of admits against `AlreadyHandled`-answering state counts an
admission. -/
theorem count_admitted_replicate : ∀ (n : Nat),
    (List.replicate n AdmitOutcome.alreadyHandled).count .admitted = 0
  | 0 => rfl
  | n + 1 => by
    simp [List.replicate_succ, List.count_cons, count_admitted_replicate n]

/-! ## Claim theorems -/

/-- C1: for any eventId not yet sighted, when `admit(eventId)` is called
by any number n ≥ 2 of parallel callers — modelled, by the guard's
atomicity, as a serialization of the n atomic calls — exactly one call
returns `Admitted` and every other call returns `AlreadyHandled`. -/
theorem admit_concurrent_exactly_one (n : Nat) (st : Store) (e : String)
    (hn : 2 ≤ n) (h : st e = none) :
    admitRun n st e = .admitted :: List.replicate (n - 1) .alreadyHandled ∧
    (admitRun n st e).count .admitted = 1 := by
  obtain ⟨m, rfl⟩ : ∃ m, n = m + 1 := ⟨n - 1, by omega⟩
  have hadm : admitOne st e =
      (.admitted, st.set e { status := .pending, jobHandle := none }) := by
    simp [admitOne, h]
  have hstep : admitRun (m + 1) st e =
      .admitted ::
        admitRun m (st.set e { status := .pending, jobHandle := none }) e := by
    simp [admitRun, hadm]
  have hrun : admitRun (m + 1) st e =
      .admitted :: List.replicate m .alreadyHandled := by
    rw [hstep,
      admitRun_stuck m _ e _ (Store.set_self st e _) (Or.inl rfl)]
  refine ⟨by simpa using hrun, ?_⟩
  rw [hrun]
  simp [List.count_cons, count_admitted_replicate]

/-- Witness for C1: fifty serialized admits of a fresh eventId yield one
`Admitted` followed by forty-nine `AlreadyHandled`. -/
theorem admit_concurrent_exactly_one_witness :
    2 ≤ 50 ∧ Store.empty ("evt-1") = none ∧
    (admitRun 50 Store.empty ("evt-1") =
        .admitted :: List.replicate 49 .alreadyHandled ∧
      (admitRun 50 Store.empty ("evt-1")).count .admitted = 1) :=
  ⟨by decide, rfl,
    admit_concurrent_exactly_one 50 Store.empty ("evt-1") (by decide) rfl⟩

/-- C2: once an eventId's record is `Submitted`, every subsequent
dispatch of an event carrying that eventId returns `Skipped`, issues no
downstream submission, and leaves the store unchanged — `Submitted` is
terminal for that eventId. -/
theorem submitted_is_terminal (st : Store) (e : String) (r : DispatchRecord)
    (ds : List (IntakeEvent × Except ProfileError ProfileReference ×
      List SubmitReply))
    (h : st e = some r) (hs : r.status = .submitted)
    (hall : ∀ d ∈ ds, (d.1).eventId = e) :
    dispatchSeq lendingConfig st ds =
      (List.replicate ds.length .skipped, st, 0) := by
  induction ds with
  | nil => rfl
  | cons d ds ih =>
    obtain ⟨ev, pr, rs⟩ := d
    have he : ev.eventId = e := hall (ev, pr, rs) (by simp)
    have hadm : admitOne st ev.eventId = (.alreadyHandled, st) := by
      rw [he]; simp [admitOne, h, hs]
    have hdisp : dispatch lendingConfig st ev pr rs = (.skipped, st, 0) := by
      simp [dispatch, hadm]
    have ih' := ih (fun d hd => hall d (by simp [hd]))
    simp [dispatchSeq, hdisp, ih', List.replicate_succ]

/-- Witness for C2: redelivering an eventId recorded `Submitted` yields
`Skipped`, zero submissions, and an unchanged store. -/
theorem submitted_is_terminal_witness :
    dispatchSeq lendingConfig
      (Store.empty.set ("e1") { status := .submitted, jobHandle := some ("jh") })
      [({ sourceBucket := ("b").toList,
          objectKey := ("documents/x.pdf").toList,
          eventId := ("e1") },
        Except.ok { name := ("proj"), resolvedHandle := ("arn") },
        [SubmitReply.accepted ("jh2")])] =
      ([DispatchOutcome.skipped],
       Store.empty.set ("e1") { status := .submitted, jobHandle := some ("jh") },
       0) :=
  submitted_is_terminal _ ("e1") _ _ (Store.set_self _ _ _) rfl (by decide)

/-- The submission loop never produces the `Skipped` outcome. -/
theorem submitLoop_ne_skipped : ∀ (b : Nat) (rs : List SubmitReply)
    (st : Store) (e : String), (submitLoop b rs st e).1 ≠ .skipped
  | _, [], _, _ => by simp [submitLoop]
  | _, .accepted h :: _, _, _ => by simp [submitLoop]
  | _, .rejectedPermanent :: _, _, _ => by simp [submitLoop]
  | 0, .rejectedTransient :: _, _, _ => by simp [submitLoop]
  | b + 1, .rejectedTransient :: rs, st, e => by
    simpa [submitLoop] using submitLoop_ne_skipped b rs st e

/-- C3: an eventId recorded `Failed` is not treated as already handled:
the guard re-admits it, and a redelivered dispatch never returns
`Skipped` — it is permitted to re-attempt. -/
theorem failed_permits_reattempt (st : Store) (e : String)
    (r : DispatchRecord) (ev : IntakeEvent)
    (pr : Except ProfileError ProfileReference) (replies : List SubmitReply)
    (h : st e = some r) (hs : r.status = .failed) (he : ev.eventId = e) :
    (admitOne st e).1 = .admitted ∧
    (dispatch lendingConfig st ev pr replies).1 ≠ .skipped := by
  have hadm : admitOne st e =
      (.admitted, st.set e { status := .pending, jobHandle := none }) := by
    simp [admitOne, h, hs]
  refine ⟨by rw [hadm], ?_⟩
  unfold dispatch
  rw [he, hadm]
  cases hd : derive lendingConfig ev.sourceBucket ev.objectKey with
  | error de => simp
  | ok loc =>
    cases pr with
    | error pe => simp
    | ok prof => simpa using submitLoop_ne_skipped 3 replies _ e

/-- Witness for C3: redelivery of an eventId recorded `Failed` is
re-admitted and its dispatch is not `Skipped`. -/
theorem failed_permits_reattempt_witness :
    (admitOne (Store.empty.set ("e2") { status := .failed, jobHandle := none })
        ("e2")).1 = .admitted ∧
    (dispatch lendingConfig
        (Store.empty.set ("e2") { status := .failed, jobHandle := none })
        { sourceBucket := ("b").toList,
          objectKey := ("documents/x.pdf").toList,
          eventId := ("e2") }
        (Except.ok { name := ("proj"), resolvedHandle := ("arn") })
        [SubmitReply.accepted ("jh")]).1 ≠ .skipped :=
  failed_permits_reattempt _ ("e2") _ _ _ _ (Store.set_self _ _ _) rfl rfl

/-- Evaluation of `derive` on a key whose slash-free leading segment is
routable and mapped. -/
theorem derive_eval (cfg : RouteConfig) (b seg rest outSeg : List Char)
    (hseg : seg.all (· != '/') = true)
    (hc : cfg.inputDirs.contains seg = true)
    (hl : cfg.dirMap.lookup seg = some outSeg) :
    derive cfg b (seg ++ '/' :: rest) =
      .ok { inputUri := s3Uri b (seg ++ '/' :: rest),
            outputUri := s3Uri b (outSeg ++ '/' :: rest) } := by
  have hm : seg ∈ cfg.inputDirs := by simpa using hc
  simp [derive, takeWhile_seg seg rest hseg, dropWhile_seg seg rest hseg,
    hm, hl]

/-- Evaluation of `derive` on a key whose slash-free leading segment is
not a configured input folder. -/
theorem derive_unroutable (cfg : RouteConfig) (b seg rest : List Char)
    (hseg : seg.all (· != '/') = true)
    (hc : cfg.inputDirs.contains seg = false) :
    derive cfg b (seg ++ '/' :: rest) = .error .unroutableKeyError := by
  have hm : seg ∉ cfg.inputDirs := by simpa using hc
  simp [derive, takeWhile_seg seg rest hseg, hm]

/-- C4: on every key under the mapped `documents` folder, `derive`
replaces the leading segment by `documents-output`, preserves the
remainder, returns fully qualified URIs with distinct input and output,
and in particular maps `documents/loan123.pdf` in bucket `b` to the
documented pair of URIs. -/
theorem derive_maps_documents :
    (∀ (b rest : List Char),
      derive lendingConfig b (("documents").toList ++ '/' :: rest) =
        .ok { inputUri := s3Uri b (("documents").toList ++ '/' :: rest),
              outputUri :=
                s3Uri b (("documents-output").toList ++ '/' :: rest) } ∧
      s3Uri b (("documents").toList ++ '/' :: rest) ≠
        s3Uri b (("documents-output").toList ++ '/' :: rest)) ∧
    derive lendingConfig (("b").toList) (("documents/loan123.pdf").toList) =
      .ok { inputUri := ("s3://b/documents/loan123.pdf").toList,
            outputUri := ("s3://b/documents-output/loan123.pdf").toList } := by
  refine ⟨fun b rest => ⟨?_, ?_⟩, by rfl⟩
  · exact derive_eval lendingConfig b _ rest _ (by decide) (by decide)
      (by decide)
  · intro hEq
    have hlen := congrArg List.length hEq
    have h9 : ((("documents").toList)).length = 9 := rfl
    have h16 : ((("documents-output").toList)).length = 16 := rfl
    simp [s3Uri, h9, h16] at hlen

/-- C5: the deriver re-validates unconditionally — a key whose leading
segment is not a configured input folder never produces a
`ProcessingLocation` and fails with `UnroutableKeyError`. -/
theorem derive_revalidates :
    (∀ (b k : List Char) (loc : ProcessingLocation),
      derive lendingConfig b k = .ok loc →
      lendingConfig.inputDirs.contains (k.takeWhile (· != '/')) = true) ∧
    (∀ (b k : List Char),
      lendingConfig.inputDirs.contains (k.takeWhile (· != '/')) = false →
      derive lendingConfig b k = .error .unroutableKeyError) := by
  constructor
  · intro b k loc h
    cases hc : lendingConfig.inputDirs.contains (k.takeWhile (· != '/')) with
    | true => rfl
    | false =>
      have hm : ¬ (k.takeWhile (· != '/') ∈ lendingConfig.inputDirs) := by
        simpa using hc
      simp [derive, hm] at h
  · intro b k hc
    have hm : ¬ (k.takeWhile (· != '/') ∈ lendingConfig.inputDirs) := by
      simpa using hc
    simp [derive, hm]

/-- Witness for C5: a routable key yields a location whose leading
segment is configured; an unroutable key fails with
`UnroutableKeyError`. -/
theorem derive_revalidates_witness :
    lendingConfig.inputDirs.contains
      ((("documents/a.pdf").toList).takeWhile (· != '/')) = true ∧
    derive lendingConfig (("b").toList) (("samples/x.pdf").toList) =
      .error .unroutableKeyError :=
  ⟨derive_revalidates.1 (("b").toList) (("documents/a.pdf").toList)
      { inputUri := ("s3://b/documents/a.pdf").toList,
        outputUri := ("s3://b/documents-output/a.pdf").toList } (by rfl),
    derive_revalidates.2 (("b").toList) (("samples/x.pdf").toList)
      (by decide)⟩

/-- C6: a derived output key (under `documents-output`) fed back into
the deriver is unroutable, and fed back into the router matches no field
configuration of the documents rule — no processing loop is possible. -/
theorem derived_output_not_reingestible :
    ∀ (b rest : List Char) (bkt src dt bn : String),
      derive lendingConfig b (("documents-output").toList ++ '/' :: rest) =
        .error .unroutableKeyError ∧
      matchesRule (createEventRule bkt (("documents/").toList)) src dt bn
        (("documents-output").toList ++ '/' :: rest) = false := by
  intro b rest bkt src dt bn
  constructor
  · exact derive_unroutable lendingConfig b _ rest (by decide) (by decide)
  · have hpf : (("documents/").toList).isPrefixOf
        (("documents-output").toList ++ '/' :: rest) = false :=
      isPrefixOf_append_false (("documents/").toList)
        (("documents-output/").toList) rest (by decide) (by decide)
    simp only [matchesRule, createEventRule]
    rw [hpf]
    simp

/-- C7: with no configured default, the resolver fails at startup with
`MissingProfileConfigError`; with a configured default, startup resolves
it once and `resolve` with an absent profileName returns that
startup-resolved reference without any per-event lookup or failure. -/
theorem resolver_default_startup :
    (∀ (cat : Catalog) (cfg : ResolverConfig),
      cfg.defaultProfileName = none →
      startupResolver cat cfg = .error .missingProfileConfigError) ∧
    (∀ (cat : Catalog) (n h : String),
      cat n = some h →
      startupResolver cat { defaultProfileName := some n } =
        .ok { defaultRef := { name := n, resolvedHandle := h } }) ∧
    (∀ (state : ResolverState) (cat : Catalog),
      resolve state cat none = .ok state.defaultRef) := by
  refine ⟨?_, ?_, ?_⟩
  · intro cat cfg hc
    simp [startupResolver, hc]
  · intro cat n h hcat
    simp [startupResolver, hcat]
  · intro state cat
    rfl

/-- Witness for C7: the sample catalog resolves the configured default
`proj` at startup, an absent default is a startup error, and resolving an
absent profileName returns the startup-resolved reference. -/
theorem resolver_default_startup_witness :
    startupResolver sampleCatalog { defaultProfileName := none } =
      .error .missingProfileConfigError ∧
    startupResolver sampleCatalog { defaultProfileName := some ("proj") } =
      .ok { defaultRef := { name := ("proj"), resolvedHandle := ("arn") } } ∧
    resolve { defaultRef := { name := ("proj"), resolvedHandle := ("arn") } }
        sampleCatalog none =
      .ok { name := ("proj"), resolvedHandle := ("arn") } :=
  ⟨resolver_default_startup.1 sampleCatalog { defaultProfileName := none } rfl,
   resolver_default_startup.2.1 sampleCatalog ("proj") ("arn") (by decide),
   resolver_default_startup.2.2
     { defaultRef := { name := ("proj"), resolvedHandle := ("arn") } }
     sampleCatalog⟩

/-- C8 counterexample: the set of Lambda environment keys is not a fixed
explicit structure — it varies with which optional context values are
present, so the stack does use dynamic only-set-if-present merging. -/
theorem env_keys_vary_with_context :
    ¬ ((stackEnvironment ("b")
          { dataProjectName := none, bdaRuntimeEndpoint := none }).map
            Prod.fst =
        (stackEnvironment ("b")
          { dataProjectName := some ("p"), bdaRuntimeEndpoint := none }).map
            Prod.fst) := by decide

/-- C8 (amended): the stack merges configuration dynamically — the
environment's keys are `TARGET_BUCKET_NAME` always, followed by
`BDA_RUNTIME_ENDPOINT` and `DATA_PROJECT_NAME` exactly when the
corresponding optional context value is present; absent values contribute
no key at all. -/
theorem env_keys_dynamic (b : String) (ctx : ContextConfig) :
    (stackEnvironment b ctx).map Prod.fst =
      ("TARGET_BUCKET_NAME") ::
        ((ctx.bdaRuntimeEndpoint.map fun _ => ("BDA_RUNTIME_ENDPOINT")).toList ++
          (ctx.dataProjectName.map fun _ => ("DATA_PROJECT_NAME")).toList) := by
  obtain ⟨dpn, ep⟩ := ctx
  cases dpn <;> cases ep <;> rfl

/-- C9: the Lambda environment always binds `TARGET_BUCKET_NAME` to the
bucket name, and binds `BDA_RUNTIME_ENDPOINT` and `DATA_PROJECT_NAME`
exactly to the corresponding optional context values — a missing value is
silently omitted, never bound to a null or empty value. -/
theorem env_entries (b : String) (ctx : ContextConfig) :
    (stackEnvironment b ctx).lookup ("TARGET_BUCKET_NAME") = some b ∧
    (stackEnvironment b ctx).lookup ("BDA_RUNTIME_ENDPOINT") =
      ctx.bdaRuntimeEndpoint ∧
    (stackEnvironment b ctx).lookup ("DATA_PROJECT_NAME") =
      ctx.dataProjectName := by
  obtain ⟨dpn, ep⟩ := ctx
  cases dpn <;> cases ep <;> exact ⟨rfl, rfl, rfl⟩

/-- C10: the stack creates exactly one routing rule; it matches only
`Object Created` events from the stack's bucket on source `aws.s3` with
keys led by `documents/`; and keys under any other deployed folder
(`samples/`, `samples-output/`, `documents-output/`) match no rule. -/
theorem single_documents_rule (bkt : String) :
    (stackRules bkt).length = 1 ∧
    (∀ r ∈ stackRules bkt, ∀ (src dt bn : String) (key : List Char),
      matchesRule r src dt bn key = true →
      src = ("aws.s3") ∧ dt = ("Object Created") ∧ bn = bkt ∧
      (("documents/").toList).isPrefixOf key = true) ∧
    (∀ r ∈ stackRules bkt, ∀ (other rest : List Char),
      other ∈ [("samples/").toList, ("samples-output/").toList,
        ("documents-output/").toList] →
      matchesRule r ("aws.s3") ("Object Created") bkt (other ++ rest) =
        false) := by
  refine ⟨rfl, ?_, ?_⟩
  · intro r hr src dt bn key hm
    have hr' : r = createEventRule bkt (("documents/").toList) := by
      simpa [stackRules] using hr
    subst hr'
    simp only [matchesRule, createEventRule, Bool.and_eq_true,
      beq_iff_eq] at hm
    obtain ⟨⟨⟨h1, h2⟩, h3⟩, h4⟩ := hm
    exact ⟨h1.symm, h2.symm, h3.symm, h4⟩
  · intro r hr other rest ho
    have hr' : r = createEventRule bkt (("documents/").toList) := by
      simpa [stackRules] using hr
    subst hr'
    simp only [List.mem_cons, List.not_mem_nil, or_false] at ho
    rcases ho with rfl | rfl | rfl <;>
      · simp only [matchesRule, createEventRule]
        rw [isPrefixOf_append_false _ _ rest (by decide) (by decide)]
        simp

/-- Witness for C10: a `documents/` key matched by the single rule has
the documented fields, and a `samples/` key matches nothing. -/
theorem single_documents_rule_witness :
    ((("aws.s3") : String) = ("aws.s3") ∧
      (("Object Created") : String) = ("Object Created") ∧
      (("bkt") : String) = ("bkt") ∧
      (("documents/").toList).isPrefixOf
        (("documents/loan123.pdf").toList) = true) ∧
    matchesRule (createEventRule ("bkt") (("documents/").toList)) ("aws.s3")
      ("Object Created") ("bkt")
      ((("samples/").toList) ++ (("x.pdf").toList)) = false :=
  ⟨(single_documents_rule ("bkt")).2.1
      (createEventRule ("bkt") (("documents/").toList)) (by simp [stackRules])
      ("aws.s3") ("Object Created") ("bkt")
      (("documents/loan123.pdf").toList) (by decide),
    (single_documents_rule ("bkt")).2.2
      (createEventRule ("bkt") (("documents/").toList)) (by simp [stackRules])
      (("samples/").toList) (("x.pdf").toList) (by decide)⟩

end LendingFlow
